import Mathlib

/-!
Shallow embedding of the DV360 alert-engine repository
(`pacing_alert.py`, `pacing.py`, `alert_functions.py`, `kpi_alert.py`,
`impression.py`, `impression_alert.py`, `pg_lag_alert.py`,
`email_body.py`, `goal_alert.py`, `main.py`).

Conventions of the embedding:
* calendar dates are day numbers (`ℤ`), the value of the parsed datetime;
* money / count columns are `ℚ`;
* a pandas float cell that can hold `inf`/`-inf`/`NaN` is modelled by
  `PVal`; columns that are provably plain numbers stay in `ℚ`;
* a dataframe is a `List` of row structures, in row order;
* `df.sort_values` (a stable sort) is modelled by `List.insertionSort`,
  which is stable;
* `groupby(k)[c].cumsum()` / `.shift(1)` are modelled positionally: for
  the row at index `i`, over the rows with the same key at indices `< i`.
-/

/-- Banker's rounding (round half to even) of a rational to an integer:
the rounding mode used by `numpy`/`pandas` `.round()`. -/
def roundHalfEven (x : ℚ) : ℤ :=
  let f := ⌊x⌋
  let frac := x - f
  if frac < 1/2 then f
  else if 1/2 < frac then f + 1
  else if f % 2 = 0 then f else f + 1

/-- `Series.round(k)`: banker's rounding at `k` decimal places. -/
def roundTo (k : ℕ) (x : ℚ) : ℚ :=
  (roundHalfEven (x * (10 : ℚ) ^ k) : ℚ) / (10 : ℚ) ^ k

/-- Does the first character list start the second one? -/
def hasPre : List Char → List Char → Bool
  | [], _ => true
  | _ :: _, [] => false
  | a :: as, b :: bs => a == b && hasPre as bs

/-- Substring search over character lists. -/
def subSearch (pat : List Char) : List Char → Bool
  | [] => hasPre pat []
  | h :: t => hasPre pat (h :: t) || subSearch pat t

/-- Python's `pat in s` substring test, used by
`Series.str.contains(pat)` on plain (non-regex-meta) patterns. -/
def strContains (hay pat : String) : Bool :=
  subSearch pat.toList hay.toList

/-- `Series.str.lower()`: lower-case every character. -/
def strLower (s : String) : String :=
  String.mk (s.data.map Char.toLower)

/-- A pandas float cell: a number, a signed infinity, or NaN.  Division
by zero in pandas produces `±inf` (or NaN for `0/0`), never an error. -/
inductive PVal where
  | num (q : ℚ)
  | posInf
  | negInf
  | nan
deriving DecidableEq

/-- Float subtraction on pandas cells. -/
def PVal.sub : PVal → PVal → PVal
  | num a, num b => num (a - b)
  | nan, _ => nan
  | _, nan => nan
  | posInf, posInf => nan
  | negInf, negInf => nan
  | posInf, _ => posInf
  | negInf, _ => negInf
  | _, posInf => negInf
  | _, negInf => posInf

/-- Float multiplication on pandas cells (cases with at least one
infinity follow IEEE-754 sign rules, `0 × inf = NaN`). -/
def PVal.mul : PVal → PVal → PVal
  | num a, num b => num (a * b)
  | nan, _ => nan
  | _, nan => nan
  | posInf, posInf => posInf
  | posInf, negInf => negInf
  | negInf, posInf => negInf
  | negInf, negInf => posInf
  | posInf, num b => if b > 0 then posInf else if b < 0 then negInf else nan
  | negInf, num b => if b > 0 then negInf else if b < 0 then posInf else nan
  | num a, posInf => if a > 0 then posInf else if a < 0 then negInf else nan
  | num a, negInf => if a > 0 then negInf else if a < 0 then posInf else nan

/-- Float division on pandas cells: division by zero yields a signed
infinity (`0/0` yields NaN), as in IEEE-754 / numpy. -/
def PVal.div : PVal → PVal → PVal
  | num a, num b =>
    if b = 0 then (if a > 0 then posInf else if a < 0 then negInf else nan)
    else num (a / b)
  | nan, _ => nan
  | _, nan => nan
  | num _, posInf => num 0
  | num _, negInf => num 0
  | posInf, num b => if b < 0 then negInf else posInf
  | negInf, num b => if b < 0 then posInf else negInf
  | posInf, posInf => nan
  | posInf, negInf => nan
  | negInf, posInf => nan
  | negInf, negInf => nan

/-- `abs` on pandas cells. -/
def PVal.abs : PVal → PVal
  | num a => num |a|
  | nan => nan
  | _ => posInf

/-- `v > c` comparison of a pandas cell with a number: NaN compares
false, as in IEEE-754. -/
def PVal.gtQ : PVal → ℚ → Bool
  | num a, c => a > c
  | posInf, _ => true
  | negInf, _ => false
  | nan, _ => false

/-- `v < c` comparison of a pandas cell with a number: NaN compares
false. -/
def PVal.ltQ : PVal → ℚ → Bool
  | num a, c => a < c
  | posInf, _ => false
  | negInf, _ => true
  | nan, _ => false

/-- `pd.isna`. -/
def PVal.isNa : PVal → Bool
  | nan => true
  | _ => false

/-- `Series.round(k)` on a pandas cell (`round` leaves `±inf`/NaN
unchanged). -/
def PVal.roundAt (k : ℕ) : PVal → PVal
  | num a => num (roundTo k a)
  | v => v

/-- A shifted value: `shift(1)` has no previous row on the first row of
a group, which pandas renders as NaN. -/
def optPV : Option ℚ → PVal
  | none => PVal.nan
  | some q => PVal.num q

section SortMachinery

variable {α : Type} (f : α → String) (g : α → ℤ)

/-- The comparison used by `df.sort_values(by=[nameCol, dateCol])`:
lexicographic on the (string, integer) sort key. -/
def keyRel (a b : α) : Prop :=
  f a < f b ∨ (f a = f b ∧ g a ≤ g b)

instance : DecidableRel (keyRel f g) := fun _ _ =>
  inferInstanceAs (Decidable (_ ∨ _))

instance : IsTotal α (keyRel f g) := by
  constructor
  intro a b
  rcases lt_trichotomy (f a) (f b) with h | h | h
  · exact Or.inl (Or.inl h)
  · rcases le_total (g a) (g b) with h2 | h2
    · exact Or.inl (Or.inr ⟨h, h2⟩)
    · exact Or.inr (Or.inr ⟨h.symm, h2⟩)
  · exact Or.inr (Or.inl h)

instance : IsTrans α (keyRel f g) := by
  constructor
  intro a b c hab hbc
  rcases hab with h1 | ⟨e1, d1⟩ <;> rcases hbc with h2 | ⟨e2, d2⟩
  · exact Or.inl (h1.trans h2)
  · exact Or.inl (lt_of_lt_of_le h1 (le_of_eq e2))
  · exact Or.inl (lt_of_le_of_lt (le_of_eq e1) h2)
  · exact Or.inr ⟨e1.trans e2, d1.trans d2⟩

/-- `df.sort_values(by=[nameCol, dateCol])`, a stable sort on the
lexicographic key. -/
def sortByKey (l : List α) : List α :=
  List.insertionSort (keyRel f g) l

/-- `groupby(key)[val].cumsum()` on a frame: each row is paired with the
sum of `v` over it and the earlier rows carrying the same key.  `seen`
accumulates the rows already passed. -/
def cumsumBy (v : α → ℚ) : List α → List α → List (α × ℚ)
  | _, [] => []
  | seen, r :: rs =>
    (r, (((seen ++ [r]).filter (fun x => f x == f r)).map v).sum) ::
      cumsumBy v (seen ++ [r]) rs

end SortMachinery

/-! ## `src/pacing_alert.py` — `calculate_pacing_alerts` -/

/-- One input row of the table consumed by `calculate_pacing_alerts`
(`src/pacing_alert.py`): `Insertion_Order_Name`, `Date`, `IO_Start_Date`,
`IO_End_Date`, `Spends`, `Planned_Budget`, `IO_Pacing`. -/
structure PacingRow where
  ioName : String
  date : ℤ
  ioStart : ℤ
  ioEnd : ℤ
  spends : ℚ
  plannedBudget : ℚ
  ioPacing : String
deriving DecidableEq

/-- `Total_Days = (IO_End_Date - IO_Start_Date).dt.days + 1`. -/
def totalDaysOf (r : PacingRow) : ℤ :=
  (r.ioEnd - r.ioStart) + 1

/-- `Days_Elapsed = ((Date - IO_Start_Date).dt.days + 1).clip(lower=1,
upper=Total_Days)`. -/
def daysElapsedOf (r : PacingRow) : ℤ :=
  min (max ((r.date - r.ioStart) + 1) 1) (totalDaysOf r)

/-- `even_target = (Planned_Budget / Total_Days) * Days_Elapsed`. -/
def evenTargetOf (r : PacingRow) : ℚ :=
  (r.plannedBudget / (totalDaysOf r : ℚ)) * (daysElapsedOf r : ℚ)

def aheadStr : String := "ahead"

def asapStr : String := "asap"

/-- `pacing_type.str.contains('ahead')` on the lower-cased `IO_Pacing`. -/
def isAheadPacing (r : PacingRow) : Bool :=
  strContains (strLower r.ioPacing) aheadStr

/-- `pacing_type.str.contains('asap')` on the lower-cased `IO_Pacing`. -/
def isAsapPacing (r : PacingRow) : Bool :=
  strContains (strLower r.ioPacing) asapStr

/-- The `np.select` over the pacing conditions: Ahead is 120% of the
even target capped at the planned budget, ASAP is the full budget,
anything else falls back to the even target. -/
def idealSpendOf (r : PacingRow) : ℚ :=
  if isAheadPacing r then min (evenTargetOf r * 1.2) r.plannedBudget
  else if isAsapPacing r then r.plannedBudget
  else evenTargetOf r

/-- `Deviation_% = ((Cumulative_Spend - safe_ideal) / safe_ideal) * 100`
with `safe_ideal = Ideal_Spend_to_Date.replace(0, nan)`, then
`.fillna(0).round(2)`: a zero ideal forces the deviation to 0. -/
def pacingDeviationPct (cum ideal : ℚ) : ℚ :=
  if ideal = 0 then 0 else roundTo 2 ((cum - ideal) / ideal * 100)

def onTrackStr : String := "On Track"

def underAsapStr : String := "Underspending (ASAP)"

def overStr : String := "Overspending"

def underStr : String := "Underspending"

/-- The status `np.select`: ASAP underspend is checked first, then the
general overspend / underspend thresholds, defaulting to On Track. -/
def pacingStatusOf (r : PacingRow) (dev : ℚ) : String :=
  if isAsapPacing r = true ∧ dev < -20 then underAsapStr
  else if dev > 20 then overStr
  else if dev < -20 then underStr
  else onTrackStr

/-- One output row of `calculate_pacing_alerts`: the input columns plus
the computed columns.  The final display step of the source appends
`" by <magnitude>%"` to an alerting status; the magnitude
(`abs(Deviation_%)`) is carried in `statusMagnitude`. -/
structure PacingOut where
  row : PacingRow
  totalDays : ℤ
  daysElapsed : ℤ
  cumulativeSpend : ℚ
  idealSpendToDate : ℚ
  deviationPct : ℚ
  pacingStatus : String
  statusMagnitude : ℚ
deriving DecidableEq

/-- The per-row computation of `calculate_pacing_alerts`, applied to a
row paired with its group-cumulative spend. -/
def stepPacing (p : PacingRow × ℚ) : PacingOut :=
  let dev := pacingDeviationPct p.2 (idealSpendOf p.1)
  ⟨p.1, totalDaysOf p.1, daysElapsedOf p.1, p.2, idealSpendOf p.1, dev,
    pacingStatusOf p.1 dev, |dev|⟩

/-- `df.sort_values(by=['Insertion_Order_Name', 'Date'])`. -/
def sortPacing (df : List PacingRow) : List PacingRow :=
  sortByKey (fun r => r.ioName) (fun r => r.date) df

/-- `calculate_pacing_alerts` (`src/pacing_alert.py`): sort by
(IO name, date), cumulate spend per IO, and compute the ideal target,
deviation and status per row. -/
def calculate_pacing_alerts (df : List PacingRow) : List PacingOut :=
  ((cumsumBy (fun r => r.ioName) (fun r => r.spends) [] (sortPacing df)).map
    stepPacing)

/-! ## Shared guarded-ratio formulas

Each of these is the `np.where(denominator > 0, numerator / denominator,
0.0)` (or the equivalent Python conditional expression) appearing in the
source files named in the doc comments. -/

/-- Daily achieved CPM `(Spends / Impressions) * 1000`, guarded on
`Impressions > 0` (`kpi_alert.py`, `alert_functions.py`, `goal_alert.py`,
`main.py`). -/
def dailyCPM (spends imps : ℚ) : ℚ :=
  if imps > 0 then spends / imps * 1000 else 0

/-- CPC `Spends / Clicks`, guarded on `Clicks > 0`
(`alert_functions.py` `check_kpi_spikes`). -/
def cpcOf (spends clicks : ℚ) : ℚ :=
  if clicks > 0 then spends / clicks else 0

/-- VTR `Complete Views / Impressions`, guarded on `Impressions > 0`
(`alert_functions.py` `check_kpi_spikes`). -/
def vtrOf (views imps : ℚ) : ℚ :=
  if imps > 0 then views / imps else 0

/-- CTR% `(Clicks / Impressions) * 100`, guarded on `Impressions > 0`
(`goal_alert.py` `calculate_li_daily_metrics`). -/
def ctrPctOf (clicks imps : ℚ) : ℚ :=
  if imps > 0 then clicks / imps * 100 else 0

/-- Flight-to-date deviation `((actual - ideal) / ideal) * 100`, guarded
on `ideal > 0` (`pacing.py` `calculate_io_metrics` / `calculate_li_metrics`). -/
def ftdDeviation (actual ideal : ℚ) : ℚ :=
  if ideal > 0 then (actual - ideal) / ideal * 100 else 0

/-- Day-over-day deviation `((today - yesterday) / yesterday) * 100`,
guarded on `yesterday > 0` (`pacing.py`, `kpi_alert.py`). -/
def dodDeviation (today yesterday : ℚ) : ℚ :=
  if yesterday > 0 then (today - yesterday) / yesterday * 100 else 0

/-- Impression lag `((actual - ideal) / ideal) * 100`, guarded on
`ideal > 0` (`pg_lag_alert.py` `calculate_io_pg_lag`). -/
def impressionLagPct (actual ideal : ℚ) : ℚ :=
  if ideal > 0 then (actual - ideal) / ideal * 100 else 0

/-! ## `src/pacing.py` — `calculate_io_metrics` -/

/-- One input row of `Data.csv` as consumed by `calculate_io_metrics`
(`src/pacing.py`): `Insertion_Order_Name`, `Date`, `Spends`,
`Planned_Budget`, `IO_Start_Date`, `IO_End_Date`. -/
structure IoRow where
  name : String
  date : ℤ
  spends : ℚ
  budget : ℚ
  startDate : ℤ
  endDate : ℤ
deriving DecidableEq

/-- `Total_Flight_Days = (IO_End_Date - IO_Start_Date).dt.days + 1`. -/
def ioTotalFlightDays (r : IoRow) : ℤ :=
  (r.endDate - r.startDate) + 1

/-- `Days_Passed = ((Date - IO_Start_Date).dt.days + 1).clip(lower=0)`
followed by the row-wise `min` with `Total_Flight_Days`. -/
def ioDaysPassed (r : IoRow) : ℤ :=
  min (max ((r.date - r.startDate) + 1) 0) (ioTotalFlightDays r)

/-- `Ideal Flight-to-Date Pacing = (Planned_Budget / Total_Flight_Days)
* Days_Passed`.  A well-formed flight window (start ≤ end) has a nonzero
day count; the `ℚ` zero-division convention stands in for the float
result outside that regime. -/
def ioIdealFtd (r : IoRow) : ℚ :=
  (r.budget / (ioTotalFlightDays r : ℚ)) * (ioDaysPassed r : ℚ)

/-- One output row of `calculate_io_metrics` (the merged target-date
frame; the temporary day-count columns are dropped by the source). -/
structure IoOut where
  row : IoRow
  actualFtdSpend : ℚ
  idealFtdPacing : ℚ
  deviationPct : ℚ
  yesterdaySpend : ℚ
  todaySpend : ℚ
  dodDeviationPct : ℚ
deriving DecidableEq

/-- The per-row computation of `calculate_io_metrics` on a target-date
row (paired with its cumulative spend) and a merged yesterday spend. -/
def stepIoMetrics (p : IoRow × ℚ) (y : ℚ) : IoOut :=
  ⟨p.1, p.2, ioIdealFtd p.1, ftdDeviation p.2 (ioIdealFtd p.1), y,
    p.1.spends, dodDeviation p.1.spends y⟩

/-- `df.sort_values(by=['Insertion_Order_Name', 'Date'])` for
`pacing.py` rows. -/
def sortIoRows (df : List IoRow) : List IoRow :=
  sortByKey (fun r => r.name) (fun r => r.date) df

/-- The `Yesterday Spend` values a left merge on the IO name brings to
one today-row: the matching previous-date spends, or the single
`fillna(0)` value when there is no match. -/
def ioYesterdayChoices (yesterdays : List (String × ℚ)) (n : String) :
    List ℚ :=
  let ms := yesterdays.filter (fun y => y.1 == n)
  if ms.isEmpty then [0] else ms.map (fun y => y.2)

/-- `calculate_io_metrics` (`src/pacing.py`): FTD cumsum and ideal
pacing on the full sorted history, filter to the target date, and
left-merge the previous date's spend per IO (`fillna(0)` when the
merge finds no previous-day row). -/
def calculate_io_metrics (df : List IoRow) (targetDate : ℤ) : List IoOut :=
  let s := sortIoRows df
  let withFtd := cumsumBy (fun r => r.name) (fun r => r.spends) [] s
  let yesterdays := (s.filter (fun r => r.date == targetDate - 1)).map
    (fun r => (r.name, r.spends))
  (withFtd.filter (fun p => p.1.date == targetDate)).flatMap (fun p =>
    (ioYesterdayChoices yesterdays p.1.name).map (stepIoMetrics p))

/-! ## `src/impression_alert.py` — `generate_impression_alert` -/

/-- One input row for `generate_impression_alert`
(`src/impression_alert.py`): `Insertion_Order_Name`, `Date`,
`Impressions`. -/
structure ImpRow where
  name : String
  date : ℤ
  impressions : ℚ
deriving DecidableEq

/-- The pacing status of `get_status`: On Track on a NaN deviation,
otherwise over/underpacing beyond ±20% with the printed magnitude
(the display formats it to two decimals). -/
inductive ImpStatus where
  | onTrack
  | overpacing (mag : PVal)
  | underpacing (mag : PVal)
deriving DecidableEq

/-- `get_status` of `generate_impression_alert`. -/
def impGetStatus (dev : PVal) : ImpStatus :=
  if dev.isNa then ImpStatus.onTrack
  else if dev.gtQ 20 then ImpStatus.overpacing dev
  else if dev.ltQ (-20) then ImpStatus.underpacing dev.abs
  else ImpStatus.onTrack

/-- One output row of `generate_impression_alert`.
`avgTillDate` is `Average_Impressions_Till_Date.round(0).astype(int)`. -/
structure ImpOut where
  row : ImpRow
  avgTillDate : ℤ
  prevDayImpressions : Option ℚ
  deviationPct : PVal
  status : ImpStatus
deriving DecidableEq

/-- `df.sort_values(by=['Insertion_Order_Name', 'Date'])` for
impression rows. -/
def sortImpRows (df : List ImpRow) : List ImpRow :=
  sortByKey (fun r => r.name) (fun r => r.date) df

/-- The row computation of `generate_impression_alert` at index `i` of
the sorted frame: expanding group mean, previous-day shift, DoD
deviation and status. -/
def impStep (s : List ImpRow) (i : ℕ) : ImpOut :=
  let r := s.getD i ⟨ "", 0, 0⟩
  let before := (s.take i).filter (fun x => x.name == r.name)
  let grp := before ++ [r]
  let avg := ((grp.map (fun x => x.impressions)).sum) / (grp.length : ℚ)
  let prev := (before.getLast?).map (fun x => x.impressions)
  let dev := PVal.mul
    (PVal.div (PVal.sub (PVal.num r.impressions) (optPV prev)) (optPV prev))
    (PVal.num 100)
  ⟨r, roundHalfEven avg, prev, dev, impGetStatus dev⟩

/-- `generate_impression_alert` (`src/impression_alert.py`), from the
loaded dataframe onward (the CSV read of the source is input handling,
out of scope). -/
def generate_impression_alert (df : List ImpRow) : List ImpOut :=
  (List.range (sortImpRows df).length).map (impStep (sortImpRows df))

/-! ## `src/kpi_alert.py` — `analyze_cpm_performance` -/

/-- One input row for `analyze_cpm_performance` (`src/kpi_alert.py`):
`Insertion_Order_Name`, `Date`, `IO_Start_Date`, `Spends`,
`Impressions`, `Insertion_Order_Goal_Value(KPI)`. -/
structure KpiRow where
  name : String
  date : ℤ
  startDate : ℤ
  spends : ℚ
  impressions : ℚ
  goalValue : ℚ
deriving DecidableEq

/-- `flight_mask = df['Date'] >= df['IO_Start_Date']`. -/
def inFlight (r : KpiRow) : Bool :=
  decide (r.startDate ≤ r.date)

/-- `df.sort_values(by=['Insertion_Order_Name', 'Date'])` for KPI rows. -/
def sortKpiRows (df : List KpiRow) : List KpiRow :=
  sortByKey (fun r => r.name) (fun r => r.date) df

/-- Intermediate per-row metrics of `analyze_cpm_performance`.  The FTD
cumsums are computed on the masked sub-frame only, so rows outside the
flight mask hold NaN there (`none`). -/
structure KpiMetrics where
  row : KpiRow
  dailyAchievedCpm : ℚ
  prevDayCpm : Option ℚ
  dodCpmChangePct : ℚ
  ftdSpends : Option ℚ
  ftdImpressions : Option ℚ
  ftdAchievedCpm : ℚ
  ftdGoalCpm : ℚ
deriving DecidableEq

/-- The row computation of `analyze_cpm_performance` at index `i` of the
sorted frame. -/
def kpiStep (s : List KpiRow) (i : ℕ) : KpiMetrics :=
  let r := s.getD i ⟨ "", 0, 0, 0, 0, 0⟩
  let sameIo := (s.take i).filter (fun x => x.name == r.name)
  let prev := (sameIo.getLast?).map (fun x => dailyCPM x.spends x.impressions)
  let dod := match prev with
    | some p => dodDeviation (dailyCPM r.spends r.impressions) p
    | none => 0
  let masked := sameIo.filter inFlight
  let ftdS := if inFlight r then
    some (((masked.map (fun x => x.spends)).sum) + r.spends) else none
  let ftdI := if inFlight r then
    some (((masked.map (fun x => x.impressions)).sum) + r.impressions) else none
  let ftdCpm := match ftdS, ftdI with
    | some a, some b => if b > 0 then a / b * 1000 else 0
    | _, _ => 0
  ⟨r, dailyCPM r.spends r.impressions, prev, dod, ftdS, ftdI, ftdCpm,
    r.goalValue⟩

def alertStr : String := "Alert"

def okStr : String := "OK"

def noDataMsg : String := "No data found for date: "

/-- One formatted output row of `analyze_cpm_performance`. -/
structure KpiOut where
  date : ℤ
  name : String
  dailyAchievedCpm : ℚ
  dodCpmChangePct : ℚ
  ftdGoalCpm : ℚ
  ftdAchievedCpm : ℚ
  status : String
deriving DecidableEq

/-- The return value of `analyze_cpm_performance`: the source returns a
plain message *string* when the requested date has no rows, and a
dataframe otherwise. -/
inductive CpmResult where
  | message (s : String)
  | table (rows : List KpiOut)
deriving DecidableEq

/-- `analyze_cpm_performance` (`src/kpi_alert.py`).  `dateStr` is the
`analysis_date_str` argument and `targetDate` its parsed day number
(date parsing is input handling, out of scope). -/
def analyze_cpm_performance (df : List KpiRow) (dateStr : String)
    (targetDate : ℤ) : CpmResult :=
  let s := sortKpiRows df
  let metrics := (List.range s.length).map (kpiStep s)
  let report := metrics.filter (fun m => m.row.date == targetDate)
  if report.isEmpty then CpmResult.message (noDataMsg ++ dateStr)
  else
    CpmResult.table (report.map (fun m =>
      ⟨m.row.date, m.row.name, roundTo 2 m.dailyAchievedCpm,
        roundTo 2 m.dodCpmChangePct, m.ftdGoalCpm,
        roundTo 2 m.ftdAchievedCpm,
        if m.dodCpmChangePct > 20 ∧ m.ftdAchievedCpm < m.ftdGoalCpm
        then alertStr else okStr⟩))

/-! ## `src/impression.py` — `check_daily_impression_deviation` -/

/-- One input row for `check_daily_impression_deviation`
(`src/impression.py`): `Date`, `IO_Start_Date`, `IO_End_Date`,
`Impressions`, `IO_Goal_Value`, `IO_Impr_Budget`. -/
structure DailyImprRow where
  date : ℤ
  ioStartDate : ℤ
  ioEndDate : ℤ
  impressions : ℚ
  ioGoalValue : ℚ
  ioImprBudget : ℚ
deriving DecidableEq

/-- One output row of `check_daily_impression_deviation`.  The daily
goal divides by `IO_Goal_Value * Total_Flight_Duration` with no guard,
so those cells are pandas floats. -/
structure DailyImprOut where
  row : DailyImprRow
  totalFlightDuration : ℤ
  dailyImpressionGoal : PVal
  deviationPct : PVal
  status : String
deriving DecidableEq

/-- `check_daily_impression_deviation` (`src/impression.py`): filter to
the target date (returning the empty frame when no row matches), then
compute the daily goal, the absolute percent deviation, and the
`Alert`/`OK` status (`np.where(Deviation_Pct > 20, ...)`, NaN compares
false). -/
def check_daily_impression_deviation (df : List DailyImprRow)
    (targetDate : ℤ) : List DailyImprOut :=
  let daily := df.filter (fun r => r.date == targetDate)
  daily.map (fun r =>
    let dur : ℤ := (r.ioEndDate - r.ioStartDate) + 1
    let goal := PVal.div (PVal.num r.ioImprBudget)
      (PVal.num (r.ioGoalValue * (dur : ℚ)))
    let dev := PVal.mul
      (PVal.div (PVal.abs (PVal.sub (PVal.num r.impressions) goal)) goal)
      (PVal.num 100)
    ⟨r, dur, PVal.roundAt 0 goal, PVal.roundAt 2 dev,
      if dev.gtQ 20 then alertStr else okStr⟩)

/-! ## `src/pg_lag_alert.py` — `calculate_io_pg_lag` -/

/-- One input row for `calculate_io_pg_lag` (`src/pg_lag_alert.py`):
`Insertion_Order_Name`, `Date`, `Planned_Budget`,
`Insertion_Order_Goal_Value(KPI)`, `IO_Start_Date`, `IO_End_Date`,
`Impressions`. -/
structure PgRow where
  name : String
  date : ℤ
  budget : ℚ
  goalValue : ℚ
  startDate : ℤ
  endDate : ℤ
  impressions : ℚ
deriving DecidableEq

/-- `Days_Passed` of `calculate_io_pg_lag`: computed from the *target*
date, `clip(lower=0)` then row-wise `min` with the total flight days. -/
def pgDaysPassed (target startD totalD : ℤ) : ℤ :=
  min (max ((target - startD) + 1) 0) totalD

/-- `groupby(name).tail(1)` after a date sort: keep the last row of each
name, in the order those last rows occur. -/
def lastPerName : List PgRow → List PgRow
  | [] => []
  | r :: rs =>
    if rs.any (fun x => x.name == r.name) then lastPerName rs
    else r :: lastPerName rs

def pgLagAlertStr : String := "PG Lag Alert: Under-pacing"

def stableStr : String := "Stable"

/-- One output row of `calculate_io_pg_lag` (its selected display
columns). -/
structure PgOut where
  derivedImpressionGoal : ℚ
  idealFtdImpressions : ℚ
  actualFtdImpressions : ℚ
  impressionLagDisplayPct : ℚ
  alertStatus : String
deriving DecidableEq

/-- `calculate_io_pg_lag` (`src/pg_lag_alert.py`): restrict to history
up to the target date (empty frame when there is none), take each IO's
latest settings row, derive the impression goal from budget / CPM goal,
linear ideal over the clipped elapsed days, actual cumulative
impressions from the history, lag% guarded on a positive ideal, and the
threshold alert.  The status is computed before the display rounding.
A well-formed goal value is nonzero (`fillna(1)` in the source guards
only NaN); the `ℚ` zero-division convention stands in for the float
result outside that regime. -/
def calculate_io_pg_lag (df : List PgRow) (targetDate : ℤ)
    (lagThreshold : ℚ) : List PgOut :=
  let history := df.filter (fun r => r.date ≤ targetDate)
  if history.isEmpty then []
  else
    let meta := lastPerName (sortByKey (fun _ => ( "" : String))
      (fun r => r.date) history)
    meta.map (fun r =>
      let derivedGoal := roundTo 0 ((r.budget / r.goalValue) * 1000)
      let totalD := (r.endDate - r.startDate) + 1
      let daysP := pgDaysPassed targetDate r.startDate totalD
      let ideal := (derivedGoal / (totalD : ℚ)) * (daysP : ℚ)
      let actual := ((history.filter (fun x => x.name == r.name)).map
        (fun x => x.impressions)).sum
      let lag := impressionLagPct actual ideal
      ⟨derivedGoal, roundTo 1 ideal, roundTo 1 actual, roundTo 1 lag,
        if lag < lagThreshold then pgLagAlertStr else stableStr⟩)

/-! ## `src/alert_functions.py` — `check_spend_pacing` -/

/-- One input row for `check_spend_pacing` (`src/alert_functions.py`):
`Insertion Order Name`, `Date`, `Spends`, `Planned Budget`,
`IO Start Date`, `IO End Date`.  The usage notes of the source presort
the frame; the function itself shifts in the given row order. -/
structure SpendRow where
  name : String
  date : ℤ
  spends : ℚ
  budget : ℚ
  startDate : ℤ
  endDate : ℤ
deriving DecidableEq

/-- The `df_metrics` columns computed by `check_spend_pacing`.  The
daily deviation and the DoD change divide with *no* zero guard, so they
are pandas floats. -/
structure SpendMetrics where
  row : SpendRow
  flightDays : ℤ
  idealDailySpend : PVal
  spendDeviationPct : PVal
  prevSpend : Option ℚ
  dodSpendChange : PVal
deriving DecidableEq

/-- The metric-computation half of `check_spend_pacing` at index `i`:
`Ideal_Daily_Spend = Planned Budget / Flight_Days`,
`Spend_Deviation_Pct = (Spends - Ideal) / Ideal` (unguarded),
`Prev_Spend = groupby(name)['Spends'].shift(1)`,
`DoD_Spend_Change = (Spends - Prev_Spend) / Prev_Spend` (unguarded). -/
def spendMetricsStep (df : List SpendRow) (i : ℕ) : SpendMetrics :=
  let r := df.getD i ⟨ "", 0, 0, 0, 0, 0⟩
  let fd : ℤ := (r.endDate - r.startDate) + 1
  let ideal := PVal.div (PVal.num r.budget) (PVal.num (fd : ℚ))
  let dev := PVal.div (PVal.sub (PVal.num r.spends) ideal) ideal
  let prev := (((df.take i).filter (fun x => x.name == r.name)).getLast?).map
    (fun x => x.spends)
  let dod := PVal.div (PVal.sub (PVal.num r.spends) (optPV prev)) (optPV prev)
  ⟨r, fd, ideal, dev, prev, dod⟩

/-- The `df_metrics` frame of `check_spend_pacing`. -/
def check_spend_pacing_metrics (df : List SpendRow) : List SpendMetrics :=
  (List.range df.length).map (spendMetricsStep df)

def spendDevDescStr : String := "Spend Deviation > 20% from Ideal"

def dodSpikeDescStr : String := "DoD Spend Spike > 25%"

/-- `check_spend_pacing` (`src/alert_functions.py`): the concatenation
of the rows whose absolute deviation exceeds 0.20 and the rows whose
DoD change exceeds 0.25, each tagged with its `Alert_Description`. -/
def check_spend_pacing (df : List SpendRow) : List (SpendMetrics × String) :=
  let m := check_spend_pacing_metrics df
  (m.filter (fun x => PVal.gtQ x.spendDeviationPct.abs 0.20)).map
    (fun x => (x, spendDevDescStr))
  ++ (m.filter (fun x => PVal.gtQ x.dodSpendChange 0.25)).map
    (fun x => (x, dodSpikeDescStr))

/-! ## `src/email_body.py` — `generate_email_body` -/

def spendAlertCol : String := "Spend Alert"

def impressionAlertCol : String := "Impression Alert"

def kpiAlertCol : String := "KPI Alert"

def placementAlertCol : String := "Placement Alert"

def dealHealthCol : String := "Deal Health"

/-- One input row for `generate_email_body` (`src/email_body.py`): an
`IO_ID` plus the five alert-status columns. -/
structure AlertRow where
  ioId : String
  spendAlert : String
  impressionAlert : String
  kpiAlert : String
  placementAlert : String
  dealHealth : String
deriving DecidableEq

/-- The row's alert columns as (column name, status) pairs, in the
order of the `alert_columns` list of the source. -/
def alertColumnsOf (r : AlertRow) : List (String × String) :=
  [(spendAlertCol, r.spendAlert), (impressionAlertCol, r.impressionAlert),
   (kpiAlertCol, r.kpiAlert), (placementAlertCol, r.placementAlert),
   (dealHealthCol, r.dealHealth)]

/-- `df[alert_columns].ne( "OK").any(axis=1)`. -/
def rowHasAlert (r : AlertRow) : Bool :=
  (alertColumnsOf r).any (fun p => !(p.2 == okStr))

/-- The (column, status) pairs a row contributes to its IO's table: the
columns whose status differs from `"OK"`, in column order. -/
def alertPairsOf (r : AlertRow) : List (String × String) :=
  (alertColumnsOf r).filter (fun p => !(p.2 == okStr))

/-- `df_errors`: the rows with at least one non-OK status. -/
def emailErrRows (df : List AlertRow) : List AlertRow :=
  df.filter rowHasAlert

/-- The group keys of `df_errors.groupby('IO_ID')`: the distinct IO ids,
in sorted order (pandas sorts group keys). -/
def emailKeys (df : List AlertRow) : List String :=
  sortByKey (fun s => s) (fun _ => 0) ((emailErrRows df).map
    (fun r => r.ioId)).dedup

/-- The grouped report content: per IO id, the (alert column, status)
pairs of its retained rows, row by row in column order. -/
def emailGroups (df : List AlertRow) : List (String × List (String × String)) :=
  (emailKeys df).map (fun k =>
    (k, ((emailErrRows df).filter (fun r => r.ioId == k)).flatMap
      alertPairsOf))

/-- `generate_email_body` (`src/email_body.py`), abstracted to the data
content of the produced HTML: `none` models the `return None` (no email
needed) branch; otherwise one table per IO id listing the non-OK
(alert type, issue) pairs. -/
def generate_email_body (df : List AlertRow) :
    Option (List (String × List (String × String))) :=
  if (emailErrRows df).isEmpty then none
  else some (emailGroups df)

/-! ## `src/main.py` — `check_spend` -/

/-- One row as seen by the `check_spend` row function of
`get_processed_data` (`src/main.py`): `spend`, the shifted
`prev_spend` (NaN on a group's first row), `flight_days`,
`total_budget`. -/
structure SalesRow where
  spend : ℚ
  prevSpend : Option ℚ
  flightDays : ℚ
  totalBudget : ℚ
deriving DecidableEq

/-- `ideal > 0 and abs(spend - ideal)/ideal > 0.20` with
`ideal = total_budget / flight_days`. -/
def pacingDevCheck (r : SalesRow) : Bool :=
  let ideal := r.totalBudget / r.flightDays
  decide (ideal > 0 ∧ |r.spend - ideal| / ideal > 0.20)

/-- `prev_spend > 0 and (spend - prev_spend)/prev_spend > 0.25`
(false on NaN). -/
def spendSpikeCheck (r : SalesRow) : Bool :=
  match r.prevSpend with
  | some p => decide (p > 0 ∧ (r.spend - p) / p > 0.25)
  | none => false

def pacingDevStr : String := "Pacing Deviation > 20%"

def spendSpikeStr : String := "Spend Spike > 25%"

/-- `check_spend` (`src/main.py`): the pacing-deviation test runs first
and returns; the spend-spike test is reached only when it fails. -/
def check_spend (r : SalesRow) : String :=
  if r.flightDays = 0 then okStr
  else if pacingDevCheck r then pacingDevStr
  else if spendSpikeCheck r then spendSpikeStr
  else okStr

/-! ## Supporting lemmas -/

theorem sortByKey_sorted {α : Type} (f : α → String) (g : α → ℤ)
    (l : List α) : List.Sorted (keyRel f g) (sortByKey f g l) :=
  List.sorted_insertionSort _ l

theorem sortByKey_idem {α : Type} (f : α → String) (g : α → ℤ)
    (l : List α) : sortByKey f g (sortByKey f g l) = sortByKey f g l :=
  List.Sorted.insertionSort_eq (sortByKey_sorted f g l)

theorem mem_sortByKey {α : Type} (f : α → String) (g : α → ℤ)
    {l : List α} {a : α} : a ∈ sortByKey f g l ↔ a ∈ l :=
  (List.perm_insertionSort (keyRel f g) l).mem_iff

theorem cumsumBy_map_fst {α : Type} (f : α → String) (v : α → ℚ) :
    ∀ (seen l : List α), (cumsumBy f v seen l).map Prod.fst = l := by
  intro seen l
  induction l generalizing seen with
  | nil => rfl
  | cons r rs ih => simp [cumsumBy, ih]

theorem roundHalfEven_intCast (n : ℤ) : roundHalfEven (n : ℚ) = n := by
  unfold roundHalfEven
  norm_num

theorem mem_calculate_pacing_alerts {df : List PacingRow} {o : PacingOut}
    (h : o ∈ calculate_pacing_alerts df) :
    ∃ p : PacingRow × ℚ, o = stepPacing p := by
  unfold calculate_pacing_alerts at h
  rcases List.mem_map.mp h with ⟨p, _, rfl⟩
  exact ⟨p, rfl⟩

theorem mem_calculate_io_metrics {df : List IoRow} {t : ℤ} {o : IoOut}
    (h : o ∈ calculate_io_metrics df t) :
    ∃ (p : IoRow × ℚ) (y : ℚ), o = stepIoMetrics p y := by
  unfold calculate_io_metrics at h
  rcases List.mem_flatMap.mp h with ⟨p, _, hy⟩
  rcases List.mem_map.mp hy with ⟨y, _, rfl⟩
  exact ⟨p, y, rfl⟩

/-- The raw columns of the `calculate_pacing_alerts` output are exactly
the sorted input rows: the computed columns only extend the frame. -/
theorem calculate_pacing_alerts_rows (df : List PacingRow) :
    (calculate_pacing_alerts df).map (fun o => o.row) = sortPacing df := by
  unfold calculate_pacing_alerts
  rw [List.map_map]
  have h : ((fun o => PacingOut.row o) ∘ stepPacing)
      = (Prod.fst : PacingRow × ℚ → PacingRow) := by
    funext p
    rfl
  rw [h, cumsumBy_map_fst]

/-- Demo run: a single AHEAD row, budget 1000, 10 flight days, elapsed
day 5 (time progress 0.5), cumulative spend 300. -/
theorem pacingAheadDemoRun :
    calculate_pacing_alerts [⟨ "io1", 4, 0, 9, 300, 1000, "Ahead"⟩]
      = [⟨⟨ "io1", 4, 0, 9, 300, 1000, "Ahead"⟩, 10, 5, 300, 600, -50,
          underStr, 50⟩] := by
  have hA : isAheadPacing ⟨ "io1", 4, 0, 9, 300, 1000, "Ahead"⟩ = true := by
    decide
  have hT : totalDaysOf ⟨ "io1", 4, 0, 9, 300, 1000, "Ahead"⟩ = 10 := by
    decide
  have hD : daysElapsedOf ⟨ "io1", 4, 0, 9, 300, 1000, "Ahead"⟩ = 5 := by
    decide
  simp [calculate_pacing_alerts, sortPacing, sortByKey, cumsumBy, stepPacing,
    idealSpendOf, hA, evenTargetOf, hT, hD, pacingDeviationPct,
    pacingStatusOf, isAsapPacing]
  norm_num [roundTo, roundHalfEven]
  decide

/-! ## Claims -/

/-- C1 (corrected): for AHEAD-pacing entities the source computes the
ideal cumulative target as 120% of the EVEN linear target capped at the
planned budget, `min(evenTarget × 1.2, budget)` — not the concave curve
`budget × t × (2 − t)` the claim states. -/
theorem ahead_ideal_is_capped_even_target (df : List PacingRow)
    (o : PacingOut) (ho : o ∈ calculate_pacing_alerts df)
    (hA : isAheadPacing o.row = true) :
    o.idealSpendToDate = min (evenTargetOf o.row * 1.2) o.row.plannedBudget := by
  rcases mem_calculate_pacing_alerts ho with ⟨p, rfl⟩
  simp only [stepPacing] at hA ⊢
  simp [idealSpendOf, hA]

/-- C1 counterexample: at budget 1000 and time progress 0.5 (elapsed day
5 of 10) the AHEAD ideal produced by the code is 600, whereas the
claimed curve `budget × t × (2 − t)` gives 750. -/
theorem ahead_curve_claim_false :
    (calculate_pacing_alerts [⟨ "io1", 4, 0, 9, 300, 1000, "Ahead"⟩]).map
        (fun o => o.idealSpendToDate) = [600]
      ∧ (600 : ℚ) ≠ 1000 * (1/2) * (2 - 1/2) := by
  constructor
  · rw [pacingAheadDemoRun]
    rfl
  · norm_num

/-- C1 witness: the capped-even AHEAD formula evaluated on the demo
row. -/
theorem ahead_ideal_is_capped_even_target_witness :
    (⟨⟨ "io1", 4, 0, 9, 300, 1000, "Ahead"⟩, 10, 5, 300, 600, -50,
        underStr, 50⟩ : PacingOut) ∈
      calculate_pacing_alerts [⟨ "io1", 4, 0, 9, 300, 1000, "Ahead"⟩]
    ∧ (600 : ℚ) = min (evenTargetOf ⟨ "io1", 4, 0, 9, 300, 1000, "Ahead"⟩ * 1.2)
        (1000 : ℚ) := by
  have hm : (⟨⟨ "io1", 4, 0, 9, 300, 1000, "Ahead"⟩, 10, 5, 300, 600, -50,
      underStr, 50⟩ : PacingOut) ∈
      calculate_pacing_alerts [⟨ "io1", 4, 0, 9, 300, 1000, "Ahead"⟩] := by
    rw [pacingAheadDemoRun]
    exact List.mem_singleton.mpr rfl
  exact ⟨hm, ahead_ideal_is_capped_even_target _ _ hm (by decide)⟩

/-- C9 (confirmed): the pipeline is a pure function of the input frame,
and re-running it over the raw columns of its own output (the source
mutates the frame it is given, so a second run sees the first run's
frame) reproduces the first run exactly. -/
theorem pacing_pipeline_idempotent (df : List PacingRow) :
    calculate_pacing_alerts ((calculate_pacing_alerts df).map (fun o => o.row))
      = calculate_pacing_alerts df := by
  rw [calculate_pacing_alerts_rows]
  unfold calculate_pacing_alerts sortPacing
  rw [sortByKey_idem]

/-- Demo run: a single ASAP row whose cumulative spend (130) exceeds
120% of the planned budget (100). -/
theorem pacingAsapOverDemoRun :
    (calculate_pacing_alerts [⟨ "io1", 4, 0, 9, 130, 100, "ASAP"⟩]).map
      (fun o => o.pacingStatus) = [overStr] := by
  have hA : isAheadPacing ⟨ "io1", 4, 0, 9, 130, 100, "ASAP"⟩ = false := by
    decide
  have hS : isAsapPacing ⟨ "io1", 4, 0, 9, 130, 100, "ASAP"⟩ = true := by
    decide
  simp [calculate_pacing_alerts, sortPacing, sortByKey, cumsumBy, stepPacing,
    idealSpendOf, hA, hS, pacingDeviationPct, pacingStatusOf]
  norm_num [roundTo, roundHalfEven]

/-- Demo run: a single ASAP row whose cumulative spend (50) is half the
planned budget (100). -/
theorem pacingAsapUnderDemoRun :
    calculate_pacing_alerts [⟨ "io1", 4, 0, 9, 50, 100, "ASAP"⟩]
      = [⟨⟨ "io1", 4, 0, 9, 50, 100, "ASAP"⟩, 10, 5, 50, 100, -50,
          underAsapStr, 50⟩] := by
  have hA : isAheadPacing ⟨ "io1", 4, 0, 9, 50, 100, "ASAP"⟩ = false := by
    decide
  have hS : isAsapPacing ⟨ "io1", 4, 0, 9, 50, 100, "ASAP"⟩ = true := by
    decide
  have hT : totalDaysOf ⟨ "io1", 4, 0, 9, 50, 100, "ASAP"⟩ = 10 := by decide
  have hD : daysElapsedOf ⟨ "io1", 4, 0, 9, 50, 100, "ASAP"⟩ = 5 := by decide
  simp [calculate_pacing_alerts, sortPacing, sortByKey, cumsumBy, stepPacing,
    idealSpendOf, hA, hS, hT, hD, pacingDeviationPct, pacingStatusOf]
  norm_num [roundTo, roundHalfEven]

/-- C2 (corrected): every ratio that the source guards — CPM, CPC, VTR,
CTR, FTD deviation, DoD deviation, impression lag, pacing deviation —
evaluates to 0 on a zero denominator; but the daily spend deviation of
`check_spend_pacing` (`alert_functions.py`) divides with no guard and
produces infinity on a zero ideal daily spend. -/
theorem zero_denominator_ratio_behavior :
    (∀ x : ℚ, dailyCPM x 0 = 0 ∧ cpcOf x 0 = 0 ∧ vtrOf x 0 = 0
      ∧ ctrPctOf x 0 = 0 ∧ ftdDeviation x 0 = 0 ∧ dodDeviation x 0 = 0
      ∧ impressionLagPct x 0 = 0 ∧ pacingDeviationPct x 0 = 0)
    ∧ (check_spend_pacing_metrics [⟨ "io1", 0, 100, 0, 0, 0⟩]).map
        (fun m => m.spendDeviationPct) = [PVal.posInf] := by
  constructor
  · intro x
    refine ⟨?_, ?_, ?_, ?_, ?_, ?_, ?_, ?_⟩ <;>
      simp [dailyCPM, cpcOf, vtrOf, ctrPctOf, ftdDeviation, dodDeviation,
        impressionLagPct, pacingDeviationPct]
  · have hr : List.range 1 = [0] := rfl
    simp [check_spend_pacing_metrics, spendMetricsStep, PVal.div, PVal.sub,
      optPV, hr]

/-- C2 counterexample: a row with planned budget 0 over a one-day flight
and spends 100 makes `Spend_Deviation_Pct` divide by an ideal daily
spend of 0; the result that flows into the alert output is `inf`,
not 0. -/
theorem zero_denominator_claim_false :
    (check_spend_pacing [⟨ "io1", 0, 100, 0, 0, 0⟩]).map
        (fun p => p.1.spendDeviationPct) = [PVal.posInf]
      ∧ PVal.posInf ≠ PVal.num 0 := by
  have hr : List.range 1 = [0] := rfl
  constructor
  · simp [check_spend_pacing, check_spend_pacing_metrics, spendMetricsStep,
      PVal.div, PVal.sub, optPV, hr, PVal.gtQ, PVal.abs]
  · decide

/-- C3 (corrected): for an ASAP entity the classifier does emit
`Underspending (ASAP)` below −20% deviation, but `Overspending` is
still reachable: it is emitted exactly when the deviation exceeds +20%
(cumulative spend above 120% of the planned budget). -/
theorem asap_status_rules (df : List PacingRow) (o : PacingOut)
    (ho : o ∈ calculate_pacing_alerts df)
    (hS : isAsapPacing o.row = true) :
    (o.deviationPct < -20 → o.pacingStatus = underAsapStr)
      ∧ (o.pacingStatus = overStr ↔ o.deviationPct > 20) := by
  rcases mem_calculate_pacing_alerts ho with ⟨p, rfl⟩
  simp only [stepPacing] at hS ⊢
  constructor
  · intro hlt
    simp [pacingStatusOf, hS, hlt]
  · constructor
    · intro hov
      by_contra hng
      push_neg at hng
      have h2 : ¬(pacingDeviationPct p.2 (idealSpendOf p.1) > 20) :=
        not_lt.mpr hng
      rcases lt_or_le (pacingDeviationPct p.2 (idealSpendOf p.1)) (-20)
        with hlt | hge
      · simp [pacingStatusOf, hS, hlt] at hov
        exact absurd hov (by decide)
      · have h1 : ¬(pacingDeviationPct p.2 (idealSpendOf p.1) < -20) :=
          not_lt.mpr hge
        simp [pacingStatusOf, hS, h1, h2] at hov
        exact absurd hov (by decide)
    · intro hgt
      have h1 : ¬(pacingDeviationPct p.2 (idealSpendOf p.1) < -20) := by
        intro hc
        linarith
      simp [pacingStatusOf, hS, h1, hgt]

/-- C3 counterexample: an ASAP entity whose cumulative spend is 130
against a budget of 100 (deviation +30%) is labelled `Overspending`,
which the claim said never happens for ASAP. -/
theorem asap_overspend_claim_false :
    isAsapPacing ⟨ "io1", 4, 0, 9, 130, 100, "ASAP"⟩ = true
      ∧ (calculate_pacing_alerts [⟨ "io1", 4, 0, 9, 130, 100, "ASAP"⟩]).map
          (fun o => o.pacingStatus) = [overStr] :=
  ⟨by decide, pacingAsapOverDemoRun⟩

/-- C3 witness: the ASAP underspend branch on the demo row with
deviation −50%. -/
theorem asap_status_rules_witness :
    (⟨⟨ "io1", 4, 0, 9, 50, 100, "ASAP"⟩, 10, 5, 50, 100, -50,
        underAsapStr, 50⟩ : PacingOut) ∈
      calculate_pacing_alerts [⟨ "io1", 4, 0, 9, 50, 100, "ASAP"⟩]
    ∧ (⟨⟨ "io1", 4, 0, 9, 50, 100, "ASAP"⟩, 10, 5, 50, 100, -50,
        underAsapStr, 50⟩ : PacingOut).pacingStatus = underAsapStr := by
  have hm : (⟨⟨ "io1", 4, 0, 9, 50, 100, "ASAP"⟩, 10, 5, 50, 100, -50,
      underAsapStr, 50⟩ : PacingOut) ∈
      calculate_pacing_alerts [⟨ "io1", 4, 0, 9, 50, 100, "ASAP"⟩] := by
    rw [pacingAsapUnderDemoRun]
    exact List.mem_singleton.mpr rfl
  exact ⟨hm, (asap_status_rules _ _ hm (by decide)).1 (by norm_num)⟩

/-- Demo run: a single EVEN row on the flight's last day (elapsed day 10
of 10), budget 1000, cumulative spend 100. -/
theorem pacingEvenDemoRun :
    calculate_pacing_alerts [⟨ "io1", 9, 0, 9, 100, 1000, "Even"⟩]
      = [⟨⟨ "io1", 9, 0, 9, 100, 1000, "Even"⟩, 10, 10, 100, 1000, -90,
          underStr, 90⟩] := by
  have hA : isAheadPacing ⟨ "io1", 9, 0, 9, 100, 1000, "Even"⟩ = false := by
    decide
  have hS : isAsapPacing ⟨ "io1", 9, 0, 9, 100, 1000, "Even"⟩ = false := by
    decide
  have hT : totalDaysOf ⟨ "io1", 9, 0, 9, 100, 1000, "Even"⟩ = 10 := by decide
  have hD : daysElapsedOf ⟨ "io1", 9, 0, 9, 100, 1000, "Even"⟩ = 10 := by
    decide
  simp [calculate_pacing_alerts, sortPacing, sortByKey, cumsumBy, stepPacing,
    idealSpendOf, hA, hS, hT, hD, evenTargetOf, pacingDeviationPct,
    pacingStatusOf]
  norm_num [roundTo, roundHalfEven]

/-- Demo run: `calculate_io_metrics` on one row at the flight's last
day (elapsed 10 of 10), budget 500, spends 75, target date 9 with no
previous-day row. -/
theorem ioMetricsDemoRun :
    calculate_io_metrics [⟨ "a", 9, 75, 500, 0, 9⟩] 9
      = [⟨⟨ "a", 9, 75, 500, 0, 9⟩, 75, 500, -85, 0, 75, 0⟩] := by
  have hT : ioTotalFlightDays ⟨ "a", 9, 75, 500, 0, 9⟩ = 10 := by decide
  have hD : ioDaysPassed ⟨ "a", 9, 75, 500, 0, 9⟩ = 10 := by decide
  simp [calculate_io_metrics, sortIoRows, sortByKey, cumsumBy,
    ioYesterdayChoices, stepIoMetrics, ioIdealFtd, hT, hD, ftdDeviation,
    dodDeviation]
  norm_num

/-- C4 (confirmed): with a nonzero flight-day count, both linear-pacing
implementations give an ideal cumulative spend equal to the full
planned budget once the clipped elapsed-day count reaches the
flight-day count — `calculate_pacing_alerts` on its EVEN default path,
and `calculate_io_metrics`, which is always linear. -/
theorem even_full_flight_ideal_equals_budget :
    (∀ (df : List PacingRow) (o : PacingOut), o ∈ calculate_pacing_alerts df →
      isAheadPacing o.row = false → isAsapPacing o.row = false →
      o.daysElapsed = o.totalDays → ((o.totalDays : ℤ) : ℚ) ≠ 0 →
      o.idealSpendToDate = o.row.plannedBudget)
    ∧ (∀ (df : List IoRow) (t : ℤ) (o : IoOut), o ∈ calculate_io_metrics df t →
      ioDaysPassed o.row = ioTotalFlightDays o.row →
      ((ioTotalFlightDays o.row : ℤ) : ℚ) ≠ 0 →
      o.idealFtdPacing = o.row.budget) := by
  constructor
  · intro df o ho hA hS hde hnz
    rcases mem_calculate_pacing_alerts ho with ⟨p, rfl⟩
    simp only [stepPacing] at hA hS hde hnz ⊢
    simp only [idealSpendOf, hA, hS, if_false, evenTargetOf, hde]
    exact div_mul_cancel₀ _ hnz
  · intro df t o ho hdp hnz
    rcases mem_calculate_io_metrics ho with ⟨p, y, rfl⟩
    simp only [stepIoMetrics] at hdp hnz ⊢
    simp only [ioIdealFtd, hdp]
    exact div_mul_cancel₀ _ hnz

/-- C4 witness: both linear paths evaluated at a 10-day flight's last
day — ideal 1000 of budget 1000, and ideal 500 of budget 500. -/
theorem even_full_flight_ideal_equals_budget_witness :
    ((⟨⟨ "io1", 9, 0, 9, 100, 1000, "Even"⟩, 10, 10, 100, 1000, -90,
        underStr, 90⟩ : PacingOut).idealSpendToDate = 1000)
    ∧ ((⟨⟨ "a", 9, 75, 500, 0, 9⟩, 75, 500, -85, 0, 75, 0⟩ :
        IoOut).idealFtdPacing = 500) := by
  have hm1 : (⟨⟨ "io1", 9, 0, 9, 100, 1000, "Even"⟩, 10, 10, 100, 1000, -90,
      underStr, 90⟩ : PacingOut) ∈
      calculate_pacing_alerts [⟨ "io1", 9, 0, 9, 100, 1000, "Even"⟩] := by
    rw [pacingEvenDemoRun]
    exact List.mem_singleton.mpr rfl
  have hm2 : (⟨⟨ "a", 9, 75, 500, 0, 9⟩, 75, 500, -85, 0, 75, 0⟩ : IoOut) ∈
      calculate_io_metrics [⟨ "a", 9, 75, 500, 0, 9⟩] 9 := by
    rw [ioMetricsDemoRun]
    exact List.mem_singleton.mpr rfl
  constructor
  · exact even_full_flight_ideal_equals_budget.1 _ _ hm1 (by decide)
      (by decide) (by decide) (by norm_num)
  · exact even_full_flight_ideal_equals_budget.2 _ 9 _ hm2 (by decide)
      (by norm_num [ioTotalFlightDays])

/-- C5 (confirmed): the aggregator yields no output at all when every
alert column of every row is the OK sentinel; and in the produced
grouping every IO's list is exactly the in-column-order (alert column,
status) pairs with status ≠ OK contributed by its retained rows
(`alertPairsOf` filters the ordered column list). -/
theorem aggregator_ok_rows_and_groups :
    (∀ df : List AlertRow, (∀ r ∈ df, rowHasAlert r = false) →
      generate_email_body df = none)
    ∧ (∀ (df : List AlertRow) (g : List (String × List (String × String))),
      generate_email_body df = some g → ∀ gp ∈ g,
      gp.2 = ((emailErrRows df).filter (fun r => r.ioId == gp.1)).flatMap
        alertPairsOf
      ∧ ∀ p ∈ gp.2, p.2 ≠ okStr) := by
  constructor
  · intro df h
    unfold generate_email_body
    have he : emailErrRows df = [] := by
      unfold emailErrRows
      refine List.filter_eq_nil_iff.mpr ?_
      intro a ha
      simp [h a ha]
    simp [he]
  · intro df g hg gp hgp
    unfold generate_email_body at hg
    by_cases he : (emailErrRows df).isEmpty
    · simp [he] at hg
    · simp [he] at hg
      subst hg
      unfold emailGroups at hgp
      rcases List.mem_map.mp hgp with ⟨k, hk, rfl⟩
      refine ⟨rfl, ?_⟩
      intro p hp
      rcases List.mem_flatMap.mp hp with ⟨r, hr, hpr⟩
      unfold alertPairsOf at hpr
      have h2 := List.of_mem_filter hpr
      simpa using h2

/-- C5 witness: an all-OK single-row table produces no output, and a
table with one Overspending spend alert produces exactly that pair in
its IO's group. -/
theorem aggregator_ok_rows_and_groups_witness :
    generate_email_body [⟨ "io1", okStr, okStr, okStr, okStr, okStr⟩] = none
    ∧ ((( "io1", [(spendAlertCol, "Overspending")]) :
        String × List (String × String)).2 =
      ((emailErrRows [⟨ "io1", "Overspending", okStr, okStr, okStr, okStr⟩]).filter
        (fun r => r.ioId == ( "io1" : String))).flatMap alertPairsOf
      ∧ ∀ p ∈ (( "io1", [(spendAlertCol, "Overspending")]) :
          String × List (String × String)).2, p.2 ≠ okStr) := by
  constructor
  · exact aggregator_ok_rows_and_groups.1 _ (by decide)
  · exact aggregator_ok_rows_and_groups.2
      [⟨ "io1", "Overspending", okStr, okStr, okStr, okStr⟩]
      [( "io1", [(spendAlertCol, "Overspending")])] (by decide) _ (by decide)

/-- Demo run: `generate_impression_alert` on a single first-day row —
no previous row exists, so the deviation is NaN and the status is
On Track. -/
theorem impressionDemoRun :
    generate_impression_alert [⟨ "x", 1, 100⟩]
      = [⟨⟨ "x", 1, 100⟩, 100, none, PVal.nan, ImpStatus.onTrack⟩] := by
  have hr : List.range 1 = [0] := rfl
  simp [generate_impression_alert, sortImpRows, sortByKey, impStep, hr,
    optPV, PVal.sub, PVal.div, PVal.mul, impGetStatus, PVal.isNa]
  norm_num [roundHalfEven]

/-- C6 (confirmed): an entity-date with no prior-day record is handled
without error — `calculate_io_metrics` reports a DoD deviation of 0
(`fillna(0)` plus the guarded ratio), and `generate_impression_alert`
reports a NaN deviation with status On Track on an entity's first row
of the series. -/
theorem missing_prior_day_is_safe :
    (∀ (df : List IoRow) (target : ℤ) (o : IoOut),
      o ∈ calculate_io_metrics df target →
      (∀ r ∈ df, r.name = o.row.name → r.date ≠ target - 1) →
      o.yesterdaySpend = 0 ∧ o.dodDeviationPct = 0)
    ∧ (∀ (df : List ImpRow) (i : ℕ) (o : ImpOut),
      (generate_impression_alert df)[i]? = some o →
      ((sortImpRows df).take i).filter (fun x => x.name == o.row.name) = [] →
      o.deviationPct = PVal.nan ∧ o.status = ImpStatus.onTrack) := by
  constructor
  · intro df target o ho hno
    simp only [calculate_io_metrics] at ho
    rcases List.mem_flatMap.mp ho with ⟨p, hp, hy⟩
    rcases List.mem_map.mp hy with ⟨y, hyc, rfl⟩
    simp only [stepIoMetrics] at hno
    simp only [ioYesterdayChoices] at hyc
    set ms := (((sortIoRows df).filter (fun r => r.date == target - 1)).map
        (fun r => (r.name, r.spends))).filter (fun q => q.1 == p.1.name)
      with hms
    have hy0 : y = 0 := by
      by_cases he : ms.isEmpty
      · rw [if_pos he] at hyc
        simpa using hyc
      · exfalso
        have hne : ms ≠ [] := by
          intro hnil
          rw [hnil] at he
          exact he rfl
        rcases List.exists_mem_of_ne_nil ms hne with ⟨q, hq⟩
        rw [hms] at hq
        obtain ⟨hqy, hqn⟩ := List.mem_filter.mp hq
        rcases List.mem_map.mp hqy with ⟨r, hr, rfl⟩
        obtain ⟨hrs, hrd⟩ := List.mem_filter.mp hr
        have hrdf : r ∈ df := (mem_sortByKey _ _).mp hrs
        have hrd' : r.date = target - 1 := by simpa using hrd
        have hrn : r.name = p.1.name := by simpa using hqn
        exact hno r hrdf hrn hrd'
    subst hy0
    constructor
    · rfl
    · simp [stepIoMetrics, dodDeviation]
  · intro df i o h hfil
    simp only [generate_impression_alert] at h
    rw [List.getElem?_map] at h
    by_cases hlt : i < (sortImpRows df).length
    · rw [List.getElem?_range hlt] at h
      obtain rfl : impStep (sortImpRows df) i = o := by simpa using h
      simp only [impStep] at hfil ⊢
      rw [hfil]
      simp [optPV, PVal.sub, PVal.div, PVal.mul, impGetStatus, PVal.isNa]
    · rw [List.getElem?_eq_none (by simpa using Nat.le_of_not_lt hlt)] at h
      simp at h

/-- C6 witness: the single-row demo frames — DoD 0 for the IO with no
previous-day row, NaN deviation and On Track for the first-day
impression row. -/
theorem missing_prior_day_is_safe_witness :
    ((⟨⟨ "a", 9, 75, 500, 0, 9⟩, 75, 500, -85, 0, 75, 0⟩ :
        IoOut).yesterdaySpend = 0
      ∧ (⟨⟨ "a", 9, 75, 500, 0, 9⟩, 75, 500, -85, 0, 75, 0⟩ :
        IoOut).dodDeviationPct = 0)
    ∧ ((⟨⟨ "x", 1, 100⟩, 100, none, PVal.nan, ImpStatus.onTrack⟩ :
        ImpOut).deviationPct = PVal.nan
      ∧ (⟨⟨ "x", 1, 100⟩, 100, none, PVal.nan, ImpStatus.onTrack⟩ :
        ImpOut).status = ImpStatus.onTrack) := by
  have hm : (⟨⟨ "a", 9, 75, 500, 0, 9⟩, 75, 500, -85, 0, 75, 0⟩ : IoOut) ∈
      calculate_io_metrics [⟨ "a", 9, 75, 500, 0, 9⟩] 9 := by
    rw [ioMetricsDemoRun]
    exact List.mem_singleton.mpr rfl
  have hb : (generate_impression_alert [⟨ "x", 1, 100⟩])[0]?
      = some ⟨⟨ "x", 1, 100⟩, 100, none, PVal.nan, ImpStatus.onTrack⟩ := by
    rw [impressionDemoRun]
    rfl
  constructor
  · exact missing_prior_day_is_safe.1 _ 9 _ hm (by decide)
  · exact missing_prior_day_is_safe.2 [⟨ "x", 1, 100⟩] 0 _ hb rfl

/-- C7 (code bug): on a target date with no matching rows,
`check_daily_impression_deviation` and `calculate_io_pg_lag` return an
empty frame of the normal output kind, but `analyze_cpm_performance`
returns a plain message *string* — `CpmResult.message` — although its
own docstring promises a `pd.DataFrame`.  Evaluated here at concrete
no-match inputs. -/
theorem no_data_target_date_behavior :
    analyze_cpm_performance [⟨ "a", 10, 0, 5, 100, 2⟩] "2025-04-20" 20
      = CpmResult.message (noDataMsg ++ "2025-04-20")
    ∧ check_daily_impression_deviation [⟨10, 0, 9, 100, 2, 1000⟩] 20 = []
    ∧ calculate_io_pg_lag [⟨ "a", 30, 100, 2, 0, 9, 50⟩] 20 (-20) = [] := by
  have hr : List.range 1 = [0] := rfl
  refine ⟨?_, ?_, ?_⟩
  · simp [analyze_cpm_performance, sortKpiRows, sortByKey, kpiStep, hr]
  · simp [check_daily_impression_deviation]
  · simp [calculate_io_pg_lag]

/-- C8 (corrected): the elapsed-day counts of `pacing.py` and
`pg_lag_alert.py` are the raw count clamped to `[0, N]`, but
`pacing_alert.py` clamps to `[1, N]`; all three stay within `[0, N]`
for any flight of at least one day. -/
theorem elapsed_day_clamping :
    (∀ r : PacingRow, 1 ≤ totalDaysOf r →
      1 ≤ daysElapsedOf r ∧ daysElapsedOf r ≤ totalDaysOf r)
    ∧ (∀ r : IoRow, 0 ≤ ioTotalFlightDays r →
      0 ≤ ioDaysPassed r ∧ ioDaysPassed r ≤ ioTotalFlightDays r)
    ∧ (∀ t s n : ℤ, 0 ≤ n →
      0 ≤ pgDaysPassed t s n ∧ pgDaysPassed t s n ≤ n) := by
  refine ⟨?_, ?_, ?_⟩
  · intro r h
    unfold daysElapsedOf totalDaysOf at *
    omega
  · intro r h
    unfold ioDaysPassed ioTotalFlightDays at *
    omega
  · intro t s n h
    unfold pgDaysPassed
    omega

/-- C8 counterexample: a date five days before the flight start (raw
elapsed count −4) gives `Days_Elapsed = 1` in `calculate_pacing_alerts`,
not the 0 that clamping to `[0, N]` would give. -/
theorem elapsed_day_clamp_claim_false :
    (calculate_pacing_alerts [⟨ "io1", 0, 5, 14, 10, 100, "Even"⟩]).map
        (fun o => o.daysElapsed) = [1]
      ∧ (1 : ℤ) ≠ min (max ((0 - 5 : ℤ) + 1) 0) 10 := by
  constructor
  · simp [calculate_pacing_alerts, sortPacing, sortByKey, cumsumBy,
      stepPacing, daysElapsedOf, totalDaysOf]
  · decide

/-- C8 witness: the three clamps evaluated at concrete dates, including
a pre-flight date. -/
theorem elapsed_day_clamping_witness :
    (1 ≤ daysElapsedOf ⟨ "io1", 0, 5, 14, 10, 100, "Even"⟩
      ∧ daysElapsedOf ⟨ "io1", 0, 5, 14, 10, 100, "Even"⟩
        ≤ totalDaysOf ⟨ "io1", 0, 5, 14, 10, 100, "Even"⟩)
    ∧ (0 ≤ ioDaysPassed ⟨ "a", 9, 75, 500, 0, 9⟩
      ∧ ioDaysPassed ⟨ "a", 9, 75, 500, 0, 9⟩
        ≤ ioTotalFlightDays ⟨ "a", 9, 75, 500, 0, 9⟩)
    ∧ (0 ≤ pgDaysPassed 20 0 10 ∧ pgDaysPassed 20 0 10 ≤ 10) :=
  ⟨elapsed_day_clamping.1 _ (by decide),
    elapsed_day_clamping.2.1 _ (by decide),
    elapsed_day_clamping.2.2 20 0 10 (by decide)⟩

/-- C10 (confirmed): in `check_spend` the pacing-deviation branch runs
first — when both it and the spend-spike condition hold, the returned
status is the pacing label; the spike label is only returned when the
pacing condition fails. -/
theorem spend_check_priority :
    (∀ r : SalesRow, r.flightDays ≠ 0 → pacingDevCheck r = true →
      spendSpikeCheck r = true → check_spend r = pacingDevStr)
    ∧ (∀ r : SalesRow, check_spend r = spendSpikeStr →
      pacingDevCheck r = false) := by
  constructor
  · intro r h0 hpc _
    unfold check_spend
    rw [if_neg h0, if_pos hpc]
  · intro r h
    unfold check_spend at h
    by_cases h0 : r.flightDays = 0
    · rw [if_pos h0] at h
      exact absurd h (by decide)
    · rw [if_neg h0] at h
      by_cases hpc : pacingDevCheck r
      · rw [if_pos hpc] at h
        exact absurd h (by decide)
      · exact Bool.not_eq_true _ ▸ (by simpa using hpc)

/-- C10 witness: spend 130 against ideal 100 and previous spend 100 —
both conditions hold and the pacing label wins. -/
theorem spend_check_priority_witness :
    pacingDevCheck ⟨130, some 100, 10, 1000⟩ = true
    ∧ spendSpikeCheck ⟨130, some 100, 10, 1000⟩ = true
    ∧ check_spend ⟨130, some 100, 10, 1000⟩ = pacingDevStr := by
  have h1 : pacingDevCheck ⟨130, some 100, 10, 1000⟩ = true := by
    norm_num [pacingDevCheck]
  have h2 : spendSpikeCheck ⟨130, some 100, 10, 1000⟩ = true := by
    norm_num [spendSpikeCheck]
  exact ⟨h1, h2, spend_check_priority.1 _ (by norm_num) h1 h2⟩
